import Mathlib

/-!
Verification of the questions CRUD API (Next.js route handlers over a
Postgres `questions` table).

Shallow embedding: each HTTP handler (`GET`/`POST` from
`src/app/api/questions/route.ts`, `PUT`/`DELETE` from the `[id]` route file)
is a pure Lean function from its request data and a database state to a
response together with the new database state.  JavaScript numbers obtained
from `Number(...)` are modelled by `JsNum` (NaN, ±Infinity, or a finite
rational); strings are Lean `String`s and `jsTrim` models
`.trim()`; absent/`undefined`/`null` JSON fields are `Option` values.

The database state records the list of question rows, the next
storage-assigned id, a logical clock for `created_at` timestamps, and
whether the optional `hint1` column exists (the handlers probe for it at
runtime and the create path issues `ALTER TABLE ... ADD COLUMN IF NOT
EXISTS hint1`).  The possibility that this `ALTER TABLE` fails (its failure
is swallowed and logged) is modelled by the boolean parameter `alterOk` of
`POST`.
-/

/-- A JavaScript number as produced by `Number(...)`: NaN, ±Infinity, or a
finite value (modelled as a rational, which covers every value the handlers
compare or fall back from). -/
inductive JsNum where
  | nan : JsNum
  | posInf : JsNum
  | negInf : JsNum
  | fin (q : ℚ) : JsNum
deriving DecidableEq

/-- A persisted question row.  `type` holds the storage vocabulary value
(`"discursiva"` / `"multipla_escolha"`) as written by the insert; `hint1`
is `none` when the column is absent or the value is SQL `NULL`; `options`
is the decoded JSONB array.  `createdAt` and `usedAt` are timestamps on the
logical clock. -/
structure Question where
  id : Int
  text : String
  difficulty : String
  type : String
  answer : String
  hint1 : Option String
  options : Option (List String)
  correctIndex : Option Int
  createdAt : Int
  usedAt : Option Int
deriving DecidableEq, Repr

/-- The storage state: whether the optional `hint1` column exists, the rows
of the `questions` table, the next serial id, and a logical clock used for
`created_at` (`NOW()`). -/
structure DbState where
  hasHint1 : Bool
  rows : List Question
  nextId : Int
  clock : Int
deriving DecidableEq, Repr

/-- Helper for `jsTrim`: drop leading whitespace characters. -/
def trimLeftChars : List Char → List Char
  | [] => []
  | c :: cs => if c.isWhitespace then trimLeftChars cs else c :: cs

/-- JavaScript's `String.prototype.trim()`: strip leading and trailing
whitespace.  (Defined on the character list so that it reduces; Lean's
`String.trim` is defined by well-founded recursion on byte positions.) -/
def jsTrim (s : String) : String :=
  ⟨(trimLeftChars (trimLeftChars s.data).reverse).reverse⟩

/-- `isNonEmptyString` from route.ts: true exactly for a string value that
is non-empty after trimming (an absent field is not a string). -/
def isNonEmptyString : Option String → Bool
  | some s => !(jsTrim s).isEmpty
  | none => false

/-- `toDbType` from route.ts lines 21–24: external→storage direction of the
type-vocabulary adapter, defaulting to `"discursiva"`. -/
def toDbType (t : String) : String :=
  if t = "MCQ" ∨ t = "multipla_escolha" then "multipla_escolha"
  else "discursiva"

/-- `toApiType` from route.ts lines 26–29: storage→external direction of
the type-vocabulary adapter, defaulting to `"OPEN"`. -/
def toApiType (t : String) : String :=
  if t = "multipla_escolha" ∨ t = "MCQ" then "MCQ"
  else "OPEN"

/-- C1: for t ∈ {OPEN, MCQ} `toApiType (toDbType t) = t`; `toDbType` sends
every input other than "MCQ"/"multipla_escolha" to "discursiva"; `toApiType`
sends every input other than "multipla_escolha"/"MCQ" to "OPEN".  Both maps
are total Lean functions, so they never fail. -/
theorem typeVocabularyRoundTripAndDefaults :
    (toApiType (toDbType "OPEN") = "OPEN" ∧ toApiType (toDbType "MCQ") = "MCQ") ∧
    (∀ t : String, t ≠ "MCQ" → t ≠ "multipla_escolha" → toDbType t = "discursiva") ∧
    (∀ t : String, t ≠ "multipla_escolha" → t ≠ "MCQ" → toApiType t = "OPEN") := by
  refine ⟨⟨by decide, by decide⟩, ?_, ?_⟩
  · intro t h1 h2
    simp [toDbType, h1, h2]
  · intro t h1 h2
    simp [toApiType, h1, h2]

/-- Witness for C1 at the concrete unrecognized input "discursiva"
(storage-native open tag) and "foo". -/
theorem typeVocabularyRoundTripAndDefaults_witness :
    toDbType "foo" = "discursiva" ∧ toApiType "discursiva" = "OPEN" :=
  ⟨typeVocabularyRoundTripAndDefaults.2.1 "foo" (by decide) (by decide),
   typeVocabularyRoundTripAndDefaults.2.2 "discursiva" (by decide) (by decide)⟩

/-- The JSON body of `POST /questions` (`CreateQuestionBody` in route.ts).
Optional / possibly-absent fields are `Option`s; `type` is the raw tag
string (accepted in either vocabulary). -/
structure CreateQuestionBody where
  text : Option String
  difficulty : Option String
  type : String
  answer : Option String
  options : Option (List String)
  correctIndex : Option Int
  hint1 : Option String
deriving DecidableEq, Repr

/-- Result of `POST /questions`: 201 with the created entity (its `type`
already translated to the external vocabulary), or an error status with a
message. -/
inductive PostResult where
  | created (q : Question) : PostResult
  | error (status : Nat) (msg : String) : PostResult
deriving DecidableEq, Repr

def textRequiredMsg : String := "Texto da pergunta é obrigatório."
def mcqOptionsMsg : String := "MCQ precisa de 4 alternativas preenchidas (A, B, C e D)."
def openAnswerMsg : String := "Resposta é obrigatória para pergunta aberta."

/-- route.ts line 138: `rawOptions.map(o => typeof o === "string" ? o.trim() : "")`
applied to `Array.isArray(body.options) ? body.options : []`. -/
def trimmedOptions (b : CreateQuestionBody) : List String :=
  (b.options.getD []).map jsTrim

/-- route.ts line 140 (negated): the trimmed options are exactly 4 entries,
none empty. -/
def mcqOptionsOk (b : CreateQuestionBody) : Bool :=
  (trimmedOptions b).length == 4 && (trimmedOptions b).all (fun o => !o.isEmpty)

/-- route.ts lines 147–150: `correctIndex` kept when it is a number in
[0,3], otherwise 0. -/
def resolveCorrectIndex (c : Option Int) : Int :=
  match c with
  | some c => if 0 ≤ c ∧ c ≤ 3 then c else 0
  | none => 0

/-- route.ts line 121: `isNonEmptyString(body.difficulty) ? body.difficulty
: "facil"` — note the supplied value is NOT trimmed. -/
def resolveDifficulty (d : Option String) : String :=
  if isNonEmptyString d then d.getD "" else "facil"

/-- The INSERT of route.ts lines 166–187: builds the new row (string fields
already trimmed by the caller), including `hint1` only when the column
exists, and returns the RETURNING row with `type` translated by
`toApiType` (line 191). -/
def insertQuestion (s : DbState) (text difficulty dbType answer : String)
    (hint1 : Option String) (options : Option (List String))
    (correctIndex : Option Int) : PostResult × DbState :=
  let row : Question :=
    { id := s.nextId, text := text, difficulty := difficulty, type := dbType,
      answer := answer,
      hint1 := if s.hasHint1 then hint1 else none,
      options := options, correctIndex := correctIndex,
      createdAt := s.clock, usedAt := none }
  (.created { row with type := toApiType row.type },
   { s with rows := row :: s.rows, nextId := s.nextId + 1, clock := s.clock + 1 })

/-- `POST /questions` (route.ts lines 112–198).  `alterOk` tells whether the
`ALTER TABLE questions ADD COLUMN IF NOT EXISTS hint1` statement (line 130)
succeeds; its failure is swallowed (lines 131–134), leaving the schema
unchanged. -/
def POST (alterOk : Bool) (b : CreateQuestionBody) (s : DbState) :
    PostResult × DbState :=
  if !isNonEmptyString b.text then (.error 400 textRequiredMsg, s)
  else
    let dbType := toDbType b.type
    let difficulty := resolveDifficulty b.difficulty
    -- line 130: ensure the hint1 column exists (runs before the per-type
    -- validation below)
    let s1 := if alterOk then { s with hasHint1 := true } else s
    if dbType = "multipla_escolha" then
      if !mcqOptionsOk b then (.error 400 mcqOptionsMsg, s1)
      else
        let ci := resolveCorrectIndex b.correctIndex
        let answer :=
          if isNonEmptyString b.answer then jsTrim (b.answer.getD "")
          else (trimmedOptions b).getD ci.toNat ""
        insertQuestion s1 (jsTrim (b.text.getD "")) difficulty dbType answer
          (if isNonEmptyString b.hint1 then some (jsTrim (b.hint1.getD "")) else none)
          (some (trimmedOptions b)) (some ci)
    else
      if !isNonEmptyString b.answer then (.error 400 openAnswerMsg, s1)
      else
        insertQuestion s1 (jsTrim (b.text.getD "")) difficulty dbType
          (jsTrim (b.answer.getD ""))
          (if isNonEmptyString b.hint1 then some (jsTrim (b.hint1.getD "")) else none)
          none none

/-- An empty database whose `hint1` column already exists. -/
def state0 : DbState := { hasHint1 := true, rows := [], nextId := 1, clock := 0 }

/-- An empty database from before the `hint1` migration. -/
def state0NoHint : DbState := { hasHint1 := false, rows := [], nextId := 1, clock := 0 }

/-- An MCQ create request whose `text` is blank and whose options are
invalid: the handler rejects it at the text check (route.ts line 116),
before the MCQ options check is reached. -/
def mcqBlankTextBody : CreateQuestionBody :=
  { text := some "   ", difficulty := none, type := "MCQ", answer := none,
    options := some [], correctIndex := none, hint1 := none }

/-- C2 counterexample: a create request with resolved type multiple-choice
and invalid options for which the reported message is the text-required
message, not the "MCQ requires 4 filled options" message. -/
theorem mcqBadOptionsMessageCounterexample :
    toDbType mcqBlankTextBody.type = "multipla_escolha" ∧
    mcqOptionsOk mcqBlankTextBody = false ∧
    (POST true mcqBlankTextBody state0).1 = .error 400 textRequiredMsg ∧
    textRequiredMsg ≠ mcqOptionsMsg := by
  refine ⟨by decide, by decide, by decide, by decide⟩

/-- C2 (amended): an MCQ create request whose trimmed options are not
exactly 4 non-empty strings fails with a 400 ValidationError and persists
no question row; the message is the MCQ one whenever the text field itself
passed validation (a blank text fails earlier with the text message). -/
theorem mcqBadOptionsRejectedNoRow (alterOk : Bool) (b : CreateQuestionBody)
    (s : DbState)
    (hty : toDbType b.type = "multipla_escolha")
    (hopt : mcqOptionsOk b = false) :
    ∃ msg, (POST alterOk b s).1 = .error 400 msg ∧
      (POST alterOk b s).2.rows = s.rows ∧
      (POST alterOk b s).2.nextId = s.nextId ∧
      (isNonEmptyString b.text = true → msg = mcqOptionsMsg) := by
  by_cases ht : isNonEmptyString b.text = true
  · refine ⟨mcqOptionsMsg, ?_, ?_, ?_, fun _ => rfl⟩ <;>
      cases alterOk <;> simp [POST, ht, hty, hopt]
  · exact ⟨textRequiredMsg, by simp [POST, ht], by simp [POST, ht],
      by simp [POST, ht], fun h => absurd h ht⟩

/-- Witness for C2 (amended) at a concrete MCQ request with only 3
options. -/
theorem mcqBadOptionsRejectedNoRow_witness :
    ∃ msg, (POST true
        { text := some "q", difficulty := none, type := "MCQ", answer := none,
          options := some ["a", "b", "c"], correctIndex := none, hint1 := none }
        state0).1 = .error 400 msg ∧
      (POST true
        { text := some "q", difficulty := none, type := "MCQ", answer := none,
          options := some ["a", "b", "c"], correctIndex := none, hint1 := none }
        state0).2.rows = state0.rows ∧
      (POST true
        { text := some "q", difficulty := none, type := "MCQ", answer := none,
          options := some ["a", "b", "c"], correctIndex := none, hint1 := none }
        state0).2.nextId = state0.nextId ∧
      (isNonEmptyString (some "q") = true → msg = mcqOptionsMsg) :=
  mcqBadOptionsRejectedNoRow true _ state0 (by decide) (by decide)

/-- The resolved correct index always lands in [0,3]. -/
theorem resolveCorrectIndex_bounds (c : Option Int) :
    0 ≤ resolveCorrectIndex c ∧ resolveCorrectIndex c ≤ 3 := by
  cases c with
  | none => simp [resolveCorrectIndex]
  | some c =>
    simp only [resolveCorrectIndex]
    split
    · omega
    · omega

/-- C3: for a valid MCQ create request the stored `correctIndex` is the
resolved index — 0 whenever `correctIndex` is missing or outside [0,3] —
and, when `answer` is not supplied as a non-empty string, the stored
`answer` is the stored (trimmed) option at that index; in particular an
omitted `correctIndex` stores index 0 and `answer = options[0]`. -/
theorem mcqCorrectIndexAndAnswerDefaults (alterOk : Bool)
    (b : CreateQuestionBody) (s : DbState)
    (htext : isNonEmptyString b.text = true)
    (hty : toDbType b.type = "multipla_escolha")
    (hopt : mcqOptionsOk b = true) :
    ∃ row, (POST alterOk b s).2.rows = row :: s.rows ∧
      row.options = some (trimmedOptions b) ∧
      row.correctIndex = some (resolveCorrectIndex b.correctIndex) ∧
      (0 : Int) ≤ resolveCorrectIndex b.correctIndex ∧
      resolveCorrectIndex b.correctIndex ≤ 3 ∧
      (∀ c : Int, b.correctIndex = some c → ¬(0 ≤ c ∧ c ≤ 3) →
        resolveCorrectIndex b.correctIndex = 0) ∧
      (b.correctIndex = none → resolveCorrectIndex b.correctIndex = 0) ∧
      (isNonEmptyString b.answer = false →
        row.answer =
          (trimmedOptions b).getD (resolveCorrectIndex b.correctIndex).toNat "") := by
  refine ⟨{ id := s.nextId, text := jsTrim (b.text.getD ""),
            difficulty := resolveDifficulty b.difficulty,
            type := toDbType b.type,
            answer := if isNonEmptyString b.answer then jsTrim (b.answer.getD "")
              else (trimmedOptions b).getD (resolveCorrectIndex b.correctIndex).toNat "",
            hint1 := if (alterOk || s.hasHint1) then
                (if isNonEmptyString b.hint1 then some (jsTrim (b.hint1.getD "")) else none)
              else none,
            options := some (trimmedOptions b),
            correctIndex := some (resolveCorrectIndex b.correctIndex),
            createdAt := s.clock, usedAt := none },
    ?_, rfl, rfl, (resolveCorrectIndex_bounds b.correctIndex).1,
    (resolveCorrectIndex_bounds b.correctIndex).2, ?_, ?_, ?_⟩
  · cases alterOk <;> simp [POST, htext, hty, hopt, insertQuestion]
  · intro c hc hbad
    rw [hc]
    simp [resolveCorrectIndex, hbad]
  · intro hc
    rw [hc]
    rfl
  · intro hans
    simp [hans]

/-- The MCQ scenario from the spec: 4 options, `correctIndex` omitted
(defaults to 0), `answer` omitted (derived from the options). -/
def mcqParisBody : CreateQuestionBody :=
  { text := some "Capital of France?", difficulty := none, type := "MCQ",
    answer := none, options := some ["Paris", "Lyon", "Nice", "Metz"],
    correctIndex := none, hint1 := none }

/-- Witness for C3 at the concrete MCQ scenario request. -/
theorem mcqCorrectIndexAndAnswerDefaults_witness :
    isNonEmptyString mcqParisBody.text = true ∧
    toDbType mcqParisBody.type = "multipla_escolha" ∧
    mcqOptionsOk mcqParisBody = true ∧
    (∃ row, (POST true mcqParisBody state0).2.rows = row :: state0.rows ∧
      row.options = some (trimmedOptions mcqParisBody) ∧
      row.correctIndex = some (resolveCorrectIndex mcqParisBody.correctIndex) ∧
      (0 : Int) ≤ resolveCorrectIndex mcqParisBody.correctIndex ∧
      resolveCorrectIndex mcqParisBody.correctIndex ≤ 3 ∧
      (∀ c : Int, mcqParisBody.correctIndex = some c → ¬(0 ≤ c ∧ c ≤ 3) →
        resolveCorrectIndex mcqParisBody.correctIndex = 0) ∧
      (mcqParisBody.correctIndex = none →
        resolveCorrectIndex mcqParisBody.correctIndex = 0) ∧
      (isNonEmptyString mcqParisBody.answer = false →
        row.answer = (trimmedOptions mcqParisBody).getD
          (resolveCorrectIndex mcqParisBody.correctIndex).toNat "")) :=
  ⟨by decide, by decide, by decide,
   mcqCorrectIndexAndAnswerDefaults true mcqParisBody state0 (by decide)
     (by decide) (by decide)⟩

/-- C4: a valid OPEN (discursive) create stores `options = null`,
`correctIndex = null` and the trimmed input answer, and returns 201 with
the created entity; an OPEN create whose answer is missing or blank fails
with a 400 ValidationError and persists no row. -/
theorem openCreateNullsAndAnswerRequired (alterOk : Bool)
    (b : CreateQuestionBody) (s : DbState)
    (hty : toDbType b.type = "discursiva") :
    (isNonEmptyString b.text = true → isNonEmptyString b.answer = true →
      ∃ row, (POST alterOk b s).2.rows = row :: s.rows ∧
        (POST alterOk b s).1 = .created { row with type := toApiType row.type } ∧
        row.options = none ∧ row.correctIndex = none ∧
        row.answer = jsTrim (b.answer.getD "")) ∧
    (isNonEmptyString b.answer = false →
      ∃ msg, (POST alterOk b s).1 = .error 400 msg ∧
        (POST alterOk b s).2.rows = s.rows ∧
        (POST alterOk b s).2.nextId = s.nextId) := by
  have hne : ("discursiva" : String) ≠ "multipla_escolha" := by decide
  constructor
  · intro ht ha
    refine ⟨{ id := s.nextId, text := jsTrim (b.text.getD ""),
              difficulty := resolveDifficulty b.difficulty,
              type := toDbType b.type,
              answer := jsTrim (b.answer.getD ""),
              hint1 := if (alterOk || s.hasHint1) then
                  (if isNonEmptyString b.hint1 then some (jsTrim (b.hint1.getD ""))
                   else none)
                else none,
              options := none, correctIndex := none,
              createdAt := s.clock, usedAt := none },
      ?_, ?_, rfl, rfl, rfl⟩ <;>
      cases alterOk <;> simp [POST, ht, ha, hty, hne, insertQuestion]
  · intro ha
    cases ht : isNonEmptyString b.text with
    | false =>
      refine ⟨textRequiredMsg, ?_, ?_, ?_⟩ <;> simp [POST, ht]
    | true =>
      refine ⟨openAnswerMsg, ?_, ?_, ?_⟩ <;>
        cases alterOk <;> simp [POST, ht, ha, hty, hne]

/-- The OPEN scenario from the spec: `{text:"CSROHA", type:"OPEN",
answer:"CHAROS", difficulty:"facil"}`. -/
def openCsrohaBody : CreateQuestionBody :=
  { text := some "CSROHA", difficulty := some "facil", type := "OPEN",
    answer := some "CHAROS", options := none, correctIndex := none,
    hint1 := none }

/-- Witness for C4 at the concrete OPEN scenario request. -/
theorem openCreateNullsAndAnswerRequired_witness :
    toDbType openCsrohaBody.type = "discursiva" ∧
    ((isNonEmptyString openCsrohaBody.text = true →
        isNonEmptyString openCsrohaBody.answer = true →
      ∃ row, (POST true openCsrohaBody state0).2.rows = row :: state0.rows ∧
        (POST true openCsrohaBody state0).1 =
          .created { row with type := toApiType row.type } ∧
        row.options = none ∧ row.correctIndex = none ∧
        row.answer = jsTrim (openCsrohaBody.answer.getD "")) ∧
    (isNonEmptyString openCsrohaBody.answer = false →
      ∃ msg, (POST true openCsrohaBody state0).1 = .error 400 msg ∧
        (POST true openCsrohaBody state0).2.rows = state0.rows ∧
        (POST true openCsrohaBody state0).2.nextId = state0.nextId)) :=
  ⟨by decide, openCreateNullsAndAnswerRequired true openCsrohaBody state0 (by decide)⟩

def invalidIdMsg : String := "ID inválido"
def notFoundMsg : String := "Pergunta não encontrada"
def deletedMsg : String := "Pergunta removida com sucesso"

/-- The id guard of the `[id]` route handlers:
`!numericId || isNaN(numericId)` — true (reject) exactly for NaN and 0
(`!0` is true in JavaScript; ±Infinity passes the guard). -/
def idGuardFails : JsNum → Bool
  | .nan => true
  | .fin q => q == 0
  | _ => false

/-- `id = $1` row matching: a row matches when the converted id is the
finite number equal to its integer id (a non-finite id matches no row). -/
def idMatches (id : JsNum) (r : Question) : Bool :=
  match id with
  | .fin q => (r.id : ℚ) == q
  | _ => false

/-- Result of `DELETE /questions/[id]`: 200 with a message, or an error
status with a message. -/
inductive DeleteResult where
  | ok (msg : String) : DeleteResult
  | error (status : Nat) (msg : String) : DeleteResult
deriving DecidableEq, Repr

/-- `DELETE /questions/[id]` (the `[id]` route file, lines 4–38): reject
invalid ids with 400, delete all rows matching the id in one statement,
404 when no row matched (`rowCount === 0`). -/
def DELETE (id : JsNum) (s : DbState) : DeleteResult × DbState :=
  if idGuardFails id then (.error 400 invalidIdMsg, s)
  else
    let remaining := s.rows.filter (fun r => !idMatches id r)
    if remaining.length == s.rows.length then (.error 404 notFoundMsg, s)
    else (.ok deletedMsg, { s with rows := remaining })

/-- The JSON body of `PUT /questions/[id]`: replacement values for the
mutable fields.  `text`/`difficulty`/`type`/`answer` are the fields the
interface requires; `hint1`/`options`/`correctIndex` may be absent
(`?? null` / `options ? ... : null` in the handler). -/
structure UpdateBody where
  text : String
  difficulty : String
  type : String
  answer : String
  hint1 : Option String
  options : Option (List String)
  correctIndex : Option Int
deriving DecidableEq, Repr

/-- Result of `PUT /questions/[id]`: 200 with the updated entity (as
returned by RETURNING — `type` is NOT translated back to the external
vocabulary by this handler), or an error status with a message. -/
inductive PutResult where
  | ok (q : Question) : PutResult
  | error (status : Nat) (msg : String) : PutResult
deriving DecidableEq, Repr

/-- The SET clause of the UPDATE (lines 62–79 of the `[id]` route file):
full replace of the mutable fields; `hint1` only when the column exists;
`created_at = created_at` keeps the creation timestamp (and `id`/`used_at`
are not touched). -/
def applyUpdate (hasHint1 : Bool) (b : UpdateBody) (r : Question) : Question :=
  { r with text := b.text, difficulty := b.difficulty, type := b.type,
           answer := b.answer,
           hint1 := if hasHint1 then b.hint1 else r.hint1,
           options := b.options, correctIndex := b.correctIndex }

/-- `PUT /questions/[id]` (the `[id]` route file, lines 40–103): reject
invalid ids with 400, update every row matching the id in one statement,
404 when no row matched, otherwise 200 with the first RETURNING row. -/
def PUT (id : JsNum) (b : UpdateBody) (s : DbState) : PutResult × DbState :=
  if idGuardFails id then (.error 400 invalidIdMsg, s)
  else
    match s.rows.find? (fun r => idMatches id r) with
    | none => (.error 404 notFoundMsg, s)
    | some r0 =>
      (.ok (applyUpdate s.hasHint1 b r0),
       { s with rows := s.rows.map (fun r =>
           if idMatches id r then applyUpdate s.hasHint1 b r else r) })

/-- C7: updating an existing id replaces all mutable fields with the
supplied values (hint1 only when the column is supported) while `createdAt`
— and the id — stay unchanged, both in storage and in the returned
entity. -/
theorem updateReplacesFieldsPreservesCreatedAt (q : ℚ) (b : UpdateBody)
    (s : DbState) (r0 : Question)
    (hq : q ≠ 0)
    (hfind : s.rows.find? (fun r => idMatches (.fin q) r) = some r0) :
    (PUT (.fin q) b s).1 = .ok (applyUpdate s.hasHint1 b r0) ∧
    (applyUpdate s.hasHint1 b r0).createdAt = r0.createdAt ∧
    (applyUpdate s.hasHint1 b r0).id = r0.id ∧
    (applyUpdate s.hasHint1 b r0).text = b.text ∧
    (applyUpdate s.hasHint1 b r0).difficulty = b.difficulty ∧
    (applyUpdate s.hasHint1 b r0).type = b.type ∧
    (applyUpdate s.hasHint1 b r0).answer = b.answer ∧
    (applyUpdate s.hasHint1 b r0).options = b.options ∧
    (applyUpdate s.hasHint1 b r0).correctIndex = b.correctIndex ∧
    (s.hasHint1 = true → (applyUpdate s.hasHint1 b r0).hint1 = b.hint1) ∧
    (PUT (.fin q) b s).2.rows = s.rows.map (fun r =>
      if idMatches (.fin q) r then applyUpdate s.hasHint1 b r else r) ∧
    (∀ r : Question, (applyUpdate s.hasHint1 b r).createdAt = r.createdAt) := by
  refine ⟨?_, rfl, rfl, rfl, rfl, rfl, rfl, rfl, rfl, ?_, ?_, fun r => rfl⟩
  · simp [PUT, idGuardFails, hq, hfind]
  · intro h
    simp [applyUpdate, h]
  · simp [PUT, idGuardFails, hq, hfind]

/-- A concrete stored question used in the PUT/DELETE witnesses. -/
def sampleRow : Question :=
  { id := 1, text := "CSROHA", difficulty := "facil", type := "discursiva",
    answer := "CHAROS", hint1 := none, options := none, correctIndex := none,
    createdAt := 42, usedAt := none }

/-- A one-row database holding `sampleRow`. -/
def sampleState : DbState :=
  { hasHint1 := true, rows := [sampleRow], nextId := 2, clock := 43 }

/-- The spec's update scenario: same fields with a new difficulty. -/
def sampleUpdateBody : UpdateBody :=
  { text := "CSROHA", difficulty := "dificil", type := "discursiva",
    answer := "CHAROS", hint1 := none, options := none, correctIndex := none }

/-- Witness for C7: updating `sampleRow` with a new difficulty. -/
theorem updateReplacesFieldsPreservesCreatedAt_witness :
    (PUT (.fin 1) sampleUpdateBody sampleState).1 =
      .ok (applyUpdate sampleState.hasHint1 sampleUpdateBody sampleRow) ∧
    (applyUpdate sampleState.hasHint1 sampleUpdateBody sampleRow).createdAt =
      sampleRow.createdAt ∧
    (applyUpdate sampleState.hasHint1 sampleUpdateBody sampleRow).id = sampleRow.id ∧
    (applyUpdate sampleState.hasHint1 sampleUpdateBody sampleRow).text =
      sampleUpdateBody.text ∧
    (applyUpdate sampleState.hasHint1 sampleUpdateBody sampleRow).difficulty =
      sampleUpdateBody.difficulty ∧
    (applyUpdate sampleState.hasHint1 sampleUpdateBody sampleRow).type =
      sampleUpdateBody.type ∧
    (applyUpdate sampleState.hasHint1 sampleUpdateBody sampleRow).answer =
      sampleUpdateBody.answer ∧
    (applyUpdate sampleState.hasHint1 sampleUpdateBody sampleRow).options =
      sampleUpdateBody.options ∧
    (applyUpdate sampleState.hasHint1 sampleUpdateBody sampleRow).correctIndex =
      sampleUpdateBody.correctIndex ∧
    (sampleState.hasHint1 = true →
      (applyUpdate sampleState.hasHint1 sampleUpdateBody sampleRow).hint1 =
        sampleUpdateBody.hint1) ∧
    (PUT (.fin 1) sampleUpdateBody sampleState).2.rows =
      sampleState.rows.map (fun r =>
        if idMatches (.fin 1) r then applyUpdate sampleState.hasHint1 sampleUpdateBody r
        else r) ∧
    (∀ r : Question,
      (applyUpdate sampleState.hasHint1 sampleUpdateBody r).createdAt = r.createdAt) :=
  updateReplacesFieldsPreservesCreatedAt 1 sampleUpdateBody sampleState sampleRow
    (by decide) (by decide)

/-- When no row matches the (guard-passing) id, the DELETE statement
removes nothing (`rowCount === 0`) and the handler answers 404 with the
state untouched. -/
theorem DELETE_no_match (id : JsNum) (s : DbState)
    (hguard : idGuardFails id = false)
    (hall : ∀ a ∈ s.rows, idMatches id a = false) :
    DELETE id s = (.error 404 notFoundMsg, s) := by
  have hfil : s.rows.filter (fun r => !idMatches id r) = s.rows :=
    List.filter_eq_self.mpr (by simpa using hall)
  simp [DELETE, hguard, hfil]

/-- C9: with a valid id, deleting when no row matches answers 404 and
leaves storage untouched, and deleting an existing row answers the success
message after which an immediate second delete of the same id answers
404. -/
theorem deleteNotFoundAndDoubleDelete (id : JsNum) (s : DbState)
    (hguard : idGuardFails id = false) :
    ((s.rows.all (fun r => !idMatches id r)) = true →
      DELETE id s = (.error 404 notFoundMsg, s)) ∧
    ((s.rows.any (fun r => idMatches id r)) = true →
      (DELETE id s).1 = .ok deletedMsg ∧
      (DELETE id (DELETE id s).2).1 = .error 404 notFoundMsg) := by
  constructor
  · intro hall
    exact DELETE_no_match id s hguard (by simpa using List.all_eq_true.mp hall)
  · intro hany
    obtain ⟨x, hx, hmx⟩ := List.any_eq_true.mp hany
    have hlt : (s.rows.filter (fun r => !idMatches id r)).length < s.rows.length :=
      List.length_filter_lt_length_iff_exists.mpr ⟨x, hx, by simp [hmx]⟩
    have hne : ((s.rows.filter (fun r => !idMatches id r)).length ==
        s.rows.length) = false := by
      simpa using Nat.ne_of_lt hlt
    have hD : DELETE id s =
        (.ok deletedMsg, { s with rows := s.rows.filter (fun r => !idMatches id r) }) := by
      rw [DELETE]
      rw [if_neg (by simp [hguard])]
      simp only [hne]
      rfl
    rw [hD]
    refine ⟨rfl, ?_⟩
    exact congrArg Prod.fst
      (DELETE_no_match id _ hguard
        (fun a ha => by simpa using (List.mem_filter.mp ha).2))

/-- Witness for C9: deleting `sampleRow` succeeds once, then 404s. -/
theorem deleteNotFoundAndDoubleDelete_witness :
    ((sampleState.rows.all (fun r => !idMatches (.fin 1) r)) = true →
      DELETE (.fin 1) sampleState = (.error 404 notFoundMsg, sampleState)) ∧
    ((sampleState.rows.any (fun r => idMatches (.fin 1) r)) = true →
      (DELETE (.fin 1) sampleState).1 = .ok deletedMsg ∧
      (DELETE (.fin 1) (DELETE (.fin 1) sampleState).2).1 = .error 404 notFoundMsg) :=
  deleteNotFoundAndDoubleDelete (.fin 1) sampleState (by decide)

/-- C10: an id path segment that converts to the number 0 (as "0", "" and
"0.0" all do under JavaScript `Number`) is rejected by the
`!numericId || isNaN(numericId)` guard exactly like NaN: both DELETE and
PUT answer the 400 "invalid id" error and leave storage unchanged, so no
row with id 0 is ever deleted or updated through these handlers. -/
theorem zeroOrNaNIdRejected (s : DbState) (b : UpdateBody) (id : JsNum)
    (h : id = .fin 0 ∨ id = .nan) :
    DELETE id s = (.error 400 invalidIdMsg, s) ∧
    PUT id b s = (.error 400 invalidIdMsg, s) := by
  rcases h with h | h <;> subst h <;>
    exact ⟨by simp [DELETE, idGuardFails], by simp [PUT, idGuardFails]⟩

/-- Witness for C10 at id 0 on the one-row database (whose row has id 1). -/
theorem zeroOrNaNIdRejected_witness :
    DELETE (.fin 0) sampleState = (.error 400 invalidIdMsg, sampleState) ∧
    PUT (.fin 0) sampleUpdateBody sampleState =
      (.error 400 invalidIdMsg, sampleState) :=
  zeroOrNaNIdRejected sampleState sampleUpdateBody (.fin 0) (Or.inl rfl)

/-- route.ts line 39: effective page — the raw value when finite and
positive, else 1. -/
def effPage : JsNum → ℚ
  | .fin q => if 0 < q then q else 1
  | _ => 1

/-- route.ts lines 40–41: effective limit — the raw value when finite,
positive and at most 200, else 5. -/
def effLimit : JsNum → ℚ
  | .fin q => if 0 < q ∧ q ≤ 200 then q else 5
  | _ => 5

/-- Insert a question into a createdAt-descending list (helper for
`ORDER BY created_at DESC`). -/
def insertByCreatedAtDesc (q : Question) : List Question → List Question
  | [] => [q]
  | x :: xs =>
    if q.createdAt ≤ x.createdAt then x :: insertByCreatedAtDesc q xs
    else q :: x :: xs

/-- `ORDER BY created_at DESC` as an insertion sort. -/
def sortByCreatedAtDesc : List Question → List Question
  | [] => []
  | x :: xs => insertByCreatedAtDesc x (sortByCreatedAtDesc xs)

/-- The JSON envelope answered by `GET /questions` (route.ts lines
98–105). -/
structure GetResponse where
  status : Nat
  page : ℚ
  limit : ℚ
  total : Nat
  totalPages : Int
  count : Nat
  data : List Question
deriving DecidableEq, Repr

/-- `GET /questions` (route.ts lines 31–110): difficulty filter, total
count, page slice ordered by creation time descending with
`OFFSET (page-1)*limit`, `type` translated per row by the SQL CASE, and
`totalPages = max(1, ceil(total/limit))`.  `LIMIT`/`OFFSET` receive
integral values in every real run (the raw parameters are either defaulted
integers or query strings); their rounding to a row count is modelled with
`Int.floor`. -/
def GET (pageRaw limitRaw : JsNum) (difficulty : Option String) (s : DbState) :
    GetResponse :=
  let page := effPage pageRaw
  let limit := effLimit limitRaw
  let offset := (page - 1) * limit
  let filtered :=
    match difficulty with
    | some d => if d ≠ "" then s.rows.filter (fun r => r.difficulty == d) else s.rows
    | none => s.rows
  let total := filtered.length
  let ordered := sortByCreatedAtDesc filtered
  let rows := ((ordered.drop (Int.toNat ⌊offset⌋)).take (Int.toNat ⌊limit⌋)).map
    (fun r => { r with type := toApiType r.type })
  { status := 200, page := page, limit := limit, total := total,
    totalPages := max 1 ⌈(total : ℚ) / limit⌉, count := rows.length, data := rows }

/-- C6: the list endpoint always answers 200 with `page = effPage` and
`limit = effLimit`; a non-finite or non-positive page falls back to 1, a
non-finite, non-positive or >200 limit falls back to 5, and the effective
limit never exceeds 200. -/
theorem listLenientPagination (p l : JsNum) (d : Option String) (s : DbState) :
    (GET p l d s).status = 200 ∧
    (GET p l d s).page = effPage p ∧
    (GET p l d s).limit = effLimit l ∧
    effLimit l ≤ 200 ∧
    (∀ q : ℚ, p = .fin q → q ≤ 0 → effPage p = 1) ∧
    ((p = .nan ∨ p = .posInf ∨ p = .negInf) → effPage p = 1) ∧
    (∀ q : ℚ, l = .fin q → (q ≤ 0 ∨ 200 < q) → effLimit l = 5) ∧
    ((l = .nan ∨ l = .posInf ∨ l = .negInf) → effLimit l = 5) := by
  refine ⟨rfl, rfl, rfl, ?_, ?_, ?_, ?_, ?_⟩
  · cases l with
    | fin q =>
      simp only [effLimit]
      split
      · next hc => exact hc.2
      · norm_num
    | nan => norm_num [effLimit]
    | posInf => norm_num [effLimit]
    | negInf => norm_num [effLimit]
  · intro q hq hle
    subst hq
    have hnp : ¬(0 < q) := not_lt.mpr hle
    simp [effPage, hnp]
  · rintro (h | h | h) <;> subst h <;> rfl
  · intro q hq hbad
    subst hq
    have hnc : ¬(0 < q ∧ q ≤ 200) := by
      rcases hbad with h | h
      · exact fun hc => absurd hc.1 (not_lt.mpr h)
      · exact fun hc => absurd hc.2 (not_le.mpr h)
    simp [effLimit, hnc]
  · rintro (h | h | h) <;> subst h <;> rfl

/-- Witness for C6: NaN page and limit 500 on the sample database. -/
theorem listLenientPagination_witness :
    (GET .nan (.fin 500) none sampleState).status = 200 ∧
    effPage .nan = 1 ∧ effLimit (.fin 500) = 5 ∧ effLimit (.fin 500) ≤ 200 :=
  ⟨(listLenientPagination .nan (.fin 500) none sampleState).1,
   (listLenientPagination .nan (.fin 500) none sampleState).2.2.2.2.2.1
     (Or.inl rfl),
   (listLenientPagination .nan (.fin 500) none sampleState).2.2.2.2.2.2.1
     500 rfl (Or.inr (by norm_num)),
   (listLenientPagination .nan (.fin 500) none sampleState).2.2.2.1⟩

/-- An MCQ create request with valid text but an empty options array. -/
def mcqEmptyOptionsBody : CreateQuestionBody :=
  { text := some "t", difficulty := none, type := "MCQ", answer := none,
    options := some [], correctIndex := none, hint1 := none }

/-- C5 counterexample: on a pre-migration database, a create request that
fails MCQ validation still changes the storage state, because the
`ALTER TABLE ... ADD COLUMN IF NOT EXISTS hint1` schema write (route.ts
line 130) runs before the per-type validation (lines 136–160). -/
theorem validationWriteOrderCounterexample :
    (POST true mcqEmptyOptionsBody state0NoHint).1 = .error 400 mcqOptionsMsg ∧
    (POST true mcqEmptyOptionsBody state0NoHint).2 ≠ state0NoHint ∧
    state0NoHint.hasHint1 = false ∧
    (POST true mcqEmptyOptionsBody state0NoHint).2.hasHint1 = true := by
  refine ⟨by decide, by decide, by decide, by decide⟩

/-- C5 (amended): every question-row write happens after all validation:
when the create operation returns a ValidationError, the rows, the id
counter and the clock are exactly as before — the only storage change a
validation failure can leave behind is the idempotent addition of the
optional `hint1` column, which is issued before the per-type checks. -/
theorem validationBeforeRowWrites (alterOk : Bool) (b : CreateQuestionBody)
    (s : DbState) (st : Nat) (msg : String)
    (h : (POST alterOk b s).1 = .error st msg) :
    (POST alterOk b s).2.rows = s.rows ∧
    (POST alterOk b s).2.nextId = s.nextId ∧
    (POST alterOk b s).2.clock = s.clock ∧
    ((POST alterOk b s).2 = s ∨ (POST alterOk b s).2 = { s with hasHint1 := true }) := by
  cases ht : isNonEmptyString b.text with
  | false =>
    refine ⟨?_, ?_, ?_, Or.inl ?_⟩ <;> simp [POST, ht]
  | true =>
    by_cases hmc : toDbType b.type = "multipla_escolha"
    · cases ho : mcqOptionsOk b with
      | false =>
        cases alterOk with
        | false =>
          refine ⟨?_, ?_, ?_, Or.inl ?_⟩ <;> simp [POST, ht, hmc, ho]
        | true =>
          refine ⟨?_, ?_, ?_, Or.inr ?_⟩ <;> simp [POST, ht, hmc, ho]
      | true =>
        exfalso
        cases alterOk <;> simp [POST, ht, hmc, ho, insertQuestion] at h
    · cases ha : isNonEmptyString b.answer with
      | false =>
        cases alterOk with
        | false =>
          refine ⟨?_, ?_, ?_, Or.inl ?_⟩ <;> simp [POST, ht, hmc, ha]
        | true =>
          refine ⟨?_, ?_, ?_, Or.inr ?_⟩ <;> simp [POST, ht, hmc, ha]
      | true =>
        exfalso
        cases alterOk <;> simp [POST, ht, hmc, ha, insertQuestion] at h

/-- Witness for C5 (amended) at the concrete failing MCQ request. -/
theorem validationBeforeRowWrites_witness :
    (POST true mcqEmptyOptionsBody state0NoHint).2.rows = state0NoHint.rows ∧
    (POST true mcqEmptyOptionsBody state0NoHint).2.nextId = state0NoHint.nextId ∧
    (POST true mcqEmptyOptionsBody state0NoHint).2.clock = state0NoHint.clock ∧
    ((POST true mcqEmptyOptionsBody state0NoHint).2 = state0NoHint ∨
     (POST true mcqEmptyOptionsBody state0NoHint).2 =
       { state0NoHint with hasHint1 := true }) :=
  validationBeforeRowWrites true mcqEmptyOptionsBody state0NoHint 400
    mcqOptionsMsg (by decide)

/-- An OPEN create request whose difficulty carries surrounding spaces. -/
def paddedDifficultyBody : CreateQuestionBody :=
  { text := some " t ", difficulty := some " facil ", type := "OPEN",
    answer := some " a ", options := none, correctIndex := none,
    hint1 := none }

/-- C8 counterexample: `difficulty` is stored exactly as supplied, spaces
included — the create path trims every other string field but not this
one. -/
theorem difficultyNotTrimmedCounterexample :
    (POST true paddedDifficultyBody state0).2.rows.map (fun r => r.difficulty) =
      [" facil "] ∧
    (POST true paddedDifficultyBody state0).2.rows.map (fun r => r.text) = ["t"] ∧
    jsTrim " facil " = "facil" ∧
    (" facil " : String) ≠ "facil" := by
  refine ⟨by decide, by decide, by decide, by decide⟩

/-- C8 (amended): in a successful create, `text`, `answer` (when supplied),
`hint1` and each option are trimmed before storage, but `difficulty` is
stored verbatim when non-empty after trimming (and replaced by "facil"
otherwise). -/
theorem createTrimsAllStringsExceptDifficulty (alterOk : Bool)
    (b : CreateQuestionBody) (s : DbState) (q : Question)
    (h : (POST alterOk b s).1 = .created q) :
    ∃ row, (POST alterOk b s).2.rows = row :: s.rows ∧
      row.text = jsTrim (b.text.getD "") ∧
      (row.options = none ∨ row.options = some ((b.options.getD []).map jsTrim)) ∧
      (row.hint1 = none ∨ row.hint1 = some (jsTrim (b.hint1.getD ""))) ∧
      (isNonEmptyString b.answer = true → row.answer = jsTrim (b.answer.getD "")) ∧
      row.difficulty = resolveDifficulty b.difficulty ∧
      (isNonEmptyString b.difficulty = true →
        resolveDifficulty b.difficulty = b.difficulty.getD "") := by
  cases ht : isNonEmptyString b.text with
  | false => simp [POST, ht] at h
  | true =>
    have hdiff : isNonEmptyString b.difficulty = true →
        resolveDifficulty b.difficulty = b.difficulty.getD "" := by
      intro hd
      simp [resolveDifficulty, hd]
    by_cases hmc : toDbType b.type = "multipla_escolha"
    · cases ho : mcqOptionsOk b with
      | false => cases alterOk <;> simp [POST, ht, hmc, ho] at h
      | true =>
        refine ⟨{ id := s.nextId, text := jsTrim (b.text.getD ""),
                  difficulty := resolveDifficulty b.difficulty,
                  type := toDbType b.type,
                  answer := if isNonEmptyString b.answer then jsTrim (b.answer.getD "")
                    else (trimmedOptions b).getD
                      (resolveCorrectIndex b.correctIndex).toNat "",
                  hint1 := if (alterOk || s.hasHint1) then
                      (if isNonEmptyString b.hint1 then some (jsTrim (b.hint1.getD ""))
                       else none)
                    else none,
                  options := some (trimmedOptions b),
                  correctIndex := some (resolveCorrectIndex b.correctIndex),
                  createdAt := s.clock, usedAt := none },
          ?_, rfl, Or.inr rfl, ?_, ?_, rfl, hdiff⟩
        · cases alterOk <;> simp [POST, ht, hmc, ho, insertQuestion, trimmedOptions]
        · cases hcol : (alterOk || s.hasHint1) <;>
            cases hh : isNonEmptyString b.hint1 <;> simp [hcol, hh]
        · intro ha
          simp [ha]
    · cases ha : isNonEmptyString b.answer with
      | false => cases alterOk <;> simp [POST, ht, hmc, ha] at h
      | true =>
        refine ⟨{ id := s.nextId, text := jsTrim (b.text.getD ""),
                  difficulty := resolveDifficulty b.difficulty,
                  type := toDbType b.type,
                  answer := jsTrim (b.answer.getD ""),
                  hint1 := if (alterOk || s.hasHint1) then
                      (if isNonEmptyString b.hint1 then some (jsTrim (b.hint1.getD ""))
                       else none)
                    else none,
                  options := none, correctIndex := none,
                  createdAt := s.clock, usedAt := none },
          ?_, rfl, Or.inl rfl, ?_, fun _ => rfl, rfl, hdiff⟩
        · cases alterOk <;> simp [POST, ht, hmc, ha, insertQuestion]
        · cases hcol : (alterOk || s.hasHint1) <;>
            cases hh : isNonEmptyString b.hint1 <;> simp [hcol, hh]

/-- Witness for C8 (amended) at the padded-difficulty request. -/
theorem createTrimsAllStringsExceptDifficulty_witness :
    (POST true paddedDifficultyBody state0).1 = .created
      { id := 1, text := "t", difficulty := " facil ", type := "OPEN",
        answer := "a", hint1 := none, options := none, correctIndex := none,
        createdAt := 0, usedAt := none } ∧
    ∃ row, (POST true paddedDifficultyBody state0).2.rows = row :: state0.rows ∧
      row.text = jsTrim (paddedDifficultyBody.text.getD "") ∧
      (row.options = none ∨
        row.options = some ((paddedDifficultyBody.options.getD []).map jsTrim)) ∧
      (row.hint1 = none ∨
        row.hint1 = some (jsTrim (paddedDifficultyBody.hint1.getD ""))) ∧
      (isNonEmptyString paddedDifficultyBody.answer = true →
        row.answer = jsTrim (paddedDifficultyBody.answer.getD "")) ∧
      row.difficulty = resolveDifficulty paddedDifficultyBody.difficulty ∧
      (isNonEmptyString paddedDifficultyBody.difficulty = true →
        resolveDifficulty paddedDifficultyBody.difficulty =
          paddedDifficultyBody.difficulty.getD "") :=
  ⟨by decide,
   createTrimsAllStringsExceptDifficulty true paddedDifficultyBody state0
     { id := 1, text := "t", difficulty := " facil ", type := "OPEN",
       answer := "a", hint1 := none, options := none, correctIndex := none,
       createdAt := 0, usedAt := none } (by decide)⟩
